import Mathlib

/-!
Verification development for the task-dispatch engine sources:

* `task_config_dao.js` — the `TaskType` enumeration and the
  `TaskConfigDao` data access object,
* the Pub/Sub message-sending handler `PubSubMessageSend`
  (`getSpeedOptions` and the per-batch send closure built inside
  `sendDataInternal`, named `getSendSingleMessageFn` in the source).

The stateful retry loop of `getSendSingleMessageFn` is embedded with an
explicit event trace (waits and publish attempts) and an oracle
`pub : Nat → Except String String` giving, for each attempt index, either
the error message of a failed `pubsub.publish` call or the message id of a
successful one.  The message construction that precedes the loop
(JSON parsing, escaping, parameter replacement) has no influence on the
control flow of the loop — the same message is re-published on every
attempt — so it is abstracted into the oracle.
-/

/-! ## TaskType enumeration (task_config_dao.js) -/

/-- The closed enumeration of task kinds from the source object `TaskType`. -/
inductive TaskType where
  | LOAD
  | QUERY
  | EXPORT
  | DATA_TRANSFER
  | EXPORT_SCHEMA
  | DELETE_DATASET
  | COPY_GCS
  | PREDICT
  | REPORT
  | QUERY_ADH
  | KNOT
  | MULTIPLE
deriving DecidableEq, Repr

/-- The string value each `TaskType` member maps to in the source. -/
def TaskType.code : TaskType → String
  | .LOAD => "load"
  | .QUERY => "query"
  | .EXPORT => "export"
  | .DATA_TRANSFER => "data_transfer"
  | .EXPORT_SCHEMA => "export_schema"
  | .DELETE_DATASET => "delete_dataset"
  | .COPY_GCS => "copy_gcs"
  | .PREDICT => "predict"
  | .REPORT => "report"
  | .QUERY_ADH => "query_adh"
  | .KNOT => "knot"
  | .MULTIPLE => "multiple"

/-- The members the source groups under the comment
"Tasks dependencies management tasks" (the two composite kinds); every
other member belongs to one of the integration groups (BigQuery,
Cloud Storage, AutoML Tables, Report). -/
def TaskType.isComposite : TaskType → Bool
  | .KNOT => true
  | .MULTIPLE => true
  | _ => false

/-- All members of the `TaskType` object, in source order. -/
def allTaskTypes : List TaskType :=
  [.LOAD, .QUERY, .EXPORT, .DATA_TRANSFER, .EXPORT_SCHEMA, .DELETE_DATASET,
   .COPY_GCS, .PREDICT, .REPORT, .QUERY_ADH, .KNOT, .MULTIPLE]

/-! ## TaskConfigDao (task_config_dao.js) -/

/-- The external `DataSource` from `@google-cloud/nodejs-common`; opaque to
the engine, identified here by a tag. -/
structure DataSource where
  id : String
deriving DecidableEq, Repr

/-- The state installed by the `DataAccessObject` base constructor
`super(collection, namespace, dataSource)`. -/
structure DataAccessObject where
  collection : String
  «namespace» : String
  dataSource : DataSource
deriving DecidableEq, Repr

/-- The `TaskConfigDao` constructor:
`constructor(dataSource, namespace = 'sentinel')` calls
`super('TaskConfig', namespace, dataSource)`.  An omitted (or `undefined`)
second argument is modelled as `none`, which makes the JS default
parameter fire. -/
def TaskConfigDao.construct (dataSource : DataSource) (ns : Option String) :
    DataAccessObject :=
  { collection := "TaskConfig"
    «namespace» := ns.getD ("sentinel")
    dataSource := dataSource }

/-- `ErrorOptions` of a TaskConfig: both fields optional in the source. -/
structure ErrorOptions where
  retryTimes : Option Nat := none
  ignoreError : Option Bool := none
deriving DecidableEq, Repr

/-! ## PubSubMessageSend constants and speed options -/

/-- One message per request (module constant of the handler). -/
def RECORDS_PER_REQUEST : Nat := 1

/-- Queries per second (module constant of the handler). -/
def QUERIES_PER_SECOND : Nat := 1

/-- Number of threads (module constant of the handler). -/
def NUMBER_OF_THREADS : Nat := 1

/-- Retry times if error happens in sending Pub/Sub messages
(module constant of the handler). -/
def RETRY_TIMES : Nat := 3

/-- Modelled from the spec: `getProperValue` comes from the shared
`@google-cloud/nodejs-common` utilities, which are not under `src/`.
Per the spec, speed options apply the integration default for any option
absent from the config and return the configured value when present and
valid; validity for these positive rate parameters means a positive
number.  The `false` third argument at the call sites in the source
disables capping by the default, so a valid configured value is returned
unchanged. -/
def getProperValue (value : Option Nat) (defaultValue : Nat) : Nat :=
  match value with
  | none => defaultValue
  | some v => if 0 < v then v else defaultValue

/-- The speed-relevant fields of `PubSubMessageConfig`. -/
structure PubSubMessageConfig where
  topic : String := ""
  numberOfThreads : Option Nat := none
  qps : Option Nat := none
deriving DecidableEq, Repr

/-- Return type of `getSpeedOptions`. -/
structure SpeedOptions where
  recordsPerRequest : Nat
  numberOfThreads : Nat
  qps : Nat
deriving DecidableEq, Repr

/-- `PubSubMessageSend.getSpeedOptions`: pins `recordsPerRequest` to the
module constant and derives the two rate parameters from the config via
`getProperValue` with uncapped defaults. -/
def getSpeedOptions (config : PubSubMessageConfig) : SpeedOptions :=
  { recordsPerRequest := RECORDS_PER_REQUEST
    numberOfThreads := getProperValue config.numberOfThreads NUMBER_OF_THREADS
    qps := getProperValue config.qps QUERIES_PER_SECOND }

/-! ## The per-batch send closure of sendDataInternal -/

/-- The `BatchResult` object: created as `{numberOfLines: 1}`, later fields
assigned only on some paths, so they are `Option`-valued with `none`
standing for an absent field. -/
structure BatchResult where
  numberOfLines : Nat
  result : Option Bool := none
  errors : Option (List String) := none
  failedLines : Option (List String) := none
deriving DecidableEq, Repr

/-- Observable effects of the retry loop: a backoff wait (milliseconds, as
passed to `wait(retryTimes * 1000)`) or a `pubsub.publish` call, labelled
by its zero-based attempt index (the value of the loop variable
`retryTimes` when the call is issued). -/
inductive PubSubEvent where
  | wait (milliseconds : Nat)
  | publish (attempt : Nat)
deriving DecidableEq, Repr

/-- The do/while retry loop of `getSendSingleMessageFn`.  `retryTimes` and
`errors` are the mutable locals of the source (attempt index and error
messages accumulated so far, `errors.push` appending at the end).  Each
call runs one loop body: an optional backoff wait
(`if (retryTimes > 0) await wait(retryTimes * 1000)`), then one publish
attempt.  On success the loop returns with `result = true`; on failure the
message is recorded and the loop continues exactly when the incremented
counter still satisfies the source condition
`retryTimes <= RETRY_TIMES`, otherwise the failure result is assembled
(`result = false`, `errors`, `failedLines = lines`). -/
def sendLoop (pub : Nat → Except String String) (lines : List String)
    (retryTimes : Nat) (errors : List String) :
    List PubSubEvent × BatchResult :=
  let waits := if 0 < retryTimes
    then [PubSubEvent.wait (retryTimes * 1000)] else []
  match pub retryTimes with
  | Except.ok _ =>
      (waits ++ [PubSubEvent.publish retryTimes],
       { numberOfLines := 1, result := some true })
  | Except.error message =>
      if h : retryTimes + 1 ≤ RETRY_TIMES then
        let rest := sendLoop pub lines (retryTimes + 1) (errors ++ [message])
        (waits ++ PubSubEvent.publish retryTimes :: rest.1, rest.2)
      else
        (waits ++ [PubSubEvent.publish retryTimes],
         { numberOfLines := 1, result := some false,
           errors := some (errors ++ [message]),
           failedLines := some lines })
termination_by RETRY_TIMES + 1 - retryTimes
decreasing_by omega

/-- The closure `getSendSingleMessageFn` built inside `sendDataInternal`:
throws (`Except.error`) when the batch does not hold exactly one record,
otherwise runs the retry loop starting at `retryTimes = 0` with an empty
error list, returning the trace of waits and publish attempts together
with the `BatchResult`. -/
def getSendSingleMessageFn (pub : Nat → Except String String)
    (lines : List String) : Except String (List PubSubEvent × BatchResult) :=
  if lines.length ≠ 1 then
    Except.error ("Wrong number of Pub/Sub messages.")
  else
    Except.ok (sendLoop pub lines 0 [])

/-- The send closure keeps the whole task configuration in scope, but the
loop bound it uses is the module constant `RETRY_TIMES`; no field of
`ErrorOptions` is read anywhere in the handler, so the outcome is that of
`getSendSingleMessageFn` for every `opts`. -/
def sendWithErrorOptions (opts : ErrorOptions)
    (pub : Nat → Except String String) (lines : List String) :
    Except String (List PubSubEvent × BatchResult) :=
  getSendSingleMessageFn pub lines

/-- Number of publish attempts recorded in a trace. -/
def publishCount (events : List PubSubEvent) : Nat :=
  (events.filter fun e =>
    match e with
    | PubSubEvent.publish _ => true
    | _ => false).length

/-- The events one loop iteration at attempt index `k` contributes when
the attempt is issued: attempt `0` is issued with no preceding wait; every
retry attempt `k ≥ 1` is preceded by a wait of `k * 1000` milliseconds. -/
def attemptBlock (k : Nat) : List PubSubEvent :=
  if 0 < k then [PubSubEvent.wait (k * 1000), PubSubEvent.publish k]
  else [PubSubEvent.publish k]

/-- The trace of the first `n` attempts of the loop. -/
def attemptTrace (n : Nat) : List PubSubEvent :=
  ((List.range n).map attemptBlock).flatten

/-! ## Claim theorems -/

/-- Claim C1: for a batch whose publish fails on every attempt, the
per-batch send function issues exactly `RETRY_TIMES + 1` publish attempts
(the retry budget of this handler is the module constant `RETRY_TIMES`)
and returns a `BatchResult` with `result = false`, `errors` holding the
failure message of every attempt in order, and `failedLines` equal to the
records of the batch. -/
theorem pubsub_all_fail_attempts_and_result (msg : Nat → String)
    (line : String) :
    getSendSingleMessageFn (fun k => Except.error (msg k)) [line] =
      Except.ok
        (attemptTrace (RETRY_TIMES + 1),
         { numberOfLines := 1, result := some false,
           errors := some ((List.range (RETRY_TIMES + 1)).map msg),
           failedLines := some [line] }) ∧
    publishCount (attemptTrace (RETRY_TIMES + 1)) = RETRY_TIMES + 1 := by
  constructor
  · simp [getSendSingleMessageFn, sendLoop, RETRY_TIMES, attemptTrace,
      attemptBlock, List.range_succ]
  · decide

/-- Claim C2 (counterexample): two `ErrorOptions` differing only in
`retryTimes` (2 versus 5) give the very same outcome for a permanently
failing batch, and the number of publish attempts under
`retryTimes = 2` is 4, not the 3 the configured budget would give: the
handler never reads `errorOptions`. -/
theorem pubsub_retryTimes_config_counterexample :
    sendWithErrorOptions { retryTimes := some 2 }
        (fun _ => Except.error ("quota")) ["r"] =
      sendWithErrorOptions { retryTimes := some 5 }
        (fun _ => Except.error ("quota")) ["r"] ∧
    ∃ evts res,
      sendWithErrorOptions { retryTimes := some 2 }
          (fun _ => Except.error ("quota")) ["r"] =
        Except.ok (evts, res) ∧ publishCount evts = 4 := by
  refine ⟨rfl, attemptTrace 4,
    ({ numberOfLines := 1, result := some false,
       errors := some ["quota", "quota", "quota", "quota"],
       failedLines := some ["r"] } : BatchResult), ?_, by decide⟩
  simp [sendWithErrorOptions, getSendSingleMessageFn, sendLoop, RETRY_TIMES,
    attemptTrace, attemptBlock, List.range_succ]

/-- Claim C2 (amended): the retry budget applied to a failing batch is the
module constant `RETRY_TIMES` of the Pub/Sub handler, independent of the
`errorOptions` of the owning TaskConfig: under every `ErrorOptions` a
permanently failing batch gets exactly `RETRY_TIMES + 1` publish
attempts. -/
theorem pubsub_retry_budget_constant_for_all_errorOptions
    (opts : ErrorOptions) (msg : Nat → String) (line : String) :
    sendWithErrorOptions opts (fun k => Except.error (msg k)) [line] =
      Except.ok
        (attemptTrace (RETRY_TIMES + 1),
         { numberOfLines := 1, result := some false,
           errors := some ((List.range (RETRY_TIMES + 1)).map msg),
           failedLines := some [line] }) ∧
    publishCount (attemptTrace (RETRY_TIMES + 1)) = RETRY_TIMES + 1 := by
  constructor
  · simp [sendWithErrorOptions, getSendSingleMessageFn, sendLoop, RETRY_TIMES,
      attemptTrace, attemptBlock, List.range_succ]
  · decide

/-- Claim C3 (counterexample): the send function performs no failure
classification.  A permanent, non-retryable style rejection (here a
NOT_FOUND failure) on the first attempt still triggers re-issues: the
trace holds a second publish attempt and four attempts in total, instead
of the zero further attempts the claim requires for a non-retryable
failure. -/
theorem pubsub_nonretryable_still_retried_counterexample :
    ∃ evts res,
      getSendSingleMessageFn
          (fun _ => Except.error ("NOT_FOUND: topic deleted")) ["r"] =
        Except.ok (evts, res) ∧
      PubSubEvent.publish 1 ∈ evts ∧ publishCount evts = 4 ∧
      res.result = some false := by
  refine ⟨attemptTrace 4,
    ({ numberOfLines := 1, result := some false,
       errors := some ["NOT_FOUND: topic deleted", "NOT_FOUND: topic deleted",
                       "NOT_FOUND: topic deleted", "NOT_FOUND: topic deleted"],
       failedLines := some ["r"] } : BatchResult),
    ?_, by decide, by decide, rfl⟩
  simp [getSendSingleMessageFn, sendLoop, RETRY_TIMES, attemptTrace,
    attemptBlock, List.range_succ]

/-- Claim C3 (amended): every failure raised by a publish attempt is
treated uniformly: whatever the failure is, as long as the loop condition
allows it triggers a re-issue, so a failed first attempt is always
followed by a second publish attempt. -/
theorem pubsub_any_failure_triggers_reissue
    (pub : Nat → Except String String) (line m : String)
    (h : pub 0 = Except.error m) :
    ∃ evts res, getSendSingleMessageFn pub [line] = Except.ok (evts, res) ∧
      PubSubEvent.publish 1 ∈ evts := by
  refine ⟨(sendLoop pub [line] 0 []).1, (sendLoop pub [line] 0 []).2,
    by simp [getSendSingleMessageFn], ?_⟩
  rcases h1 : pub 1 with m1 | v1 <;>
    simp [sendLoop, h, h1, RETRY_TIMES]

/-- Witness for the amended claim C3 at a concrete always-failing
oracle. -/
theorem pubsub_any_failure_triggers_reissue_witness :
    ∃ evts res,
      getSendSingleMessageFn (fun _ => Except.error ("boom")) ["x"] =
        Except.ok (evts, res) ∧
      PubSubEvent.publish 1 ∈ evts :=
  pubsub_any_failure_triggers_reissue
    (fun _ => Except.error ("boom")) "x" "boom" rfl

/-- Claim C4: a batch that does not hold exactly one record makes the
per-batch send function throw `Wrong number of Pub/Sub messages.` before
the retry loop runs: no publish is issued, no retry is consumed, and no
`BatchResult` is produced — the fault surfaces as a thrown error
(`Except.error`), distinct from a data/send fault, which surfaces as a
returned `BatchResult` with `result = false`. -/
theorem pubsub_wrong_arity_throws (pub : Nat → Except String String)
    (lines : List String) (h : lines.length ≠ 1) :
    getSendSingleMessageFn pub lines =
      Except.error ("Wrong number of Pub/Sub messages.") ∧
    ∀ evts res, getSendSingleMessageFn pub lines ≠ Except.ok (evts, res) := by
  refine ⟨by simp [getSendSingleMessageFn, h], ?_⟩
  intro evts res hcontra
  simp [getSendSingleMessageFn, h] at hcontra

/-- Witness for claim C4 at a two-record batch. -/
theorem pubsub_wrong_arity_throws_witness :
    getSendSingleMessageFn (fun _ => Except.ok ("id")) ["a", "b"] =
      Except.error ("Wrong number of Pub/Sub messages.") ∧
    ∀ evts res,
      getSendSingleMessageFn (fun _ => Except.ok ("id")) ["a", "b"] ≠
        Except.ok (evts, res) :=
  pubsub_wrong_arity_throws _ ["a", "b"] (by decide)

/-- Claim C5: whatever the publish outcomes, the trace of the per-batch
send is `attemptTrace n` for some `1 ≤ n ≤ RETRY_TIMES + 1`: attempt `0`
is issued with no preceding wait, and every retry attempt `k ≥ 1` is
immediately preceded by a wait of `k * 1000` milliseconds (`k` seconds),
as `attemptBlock` prescribes. -/
theorem pubsub_backoff_trace_linear (pub : Nat → Except String String)
    (line : String) :
    ∃ n res, 1 ≤ n ∧ n ≤ RETRY_TIMES + 1 ∧
      getSendSingleMessageFn pub [line] = Except.ok (attemptTrace n, res) := by
  rcases h0 : pub 0 with m0 | v0
  · rcases h1 : pub 1 with m1 | v1
    · rcases h2 : pub 2 with m2 | v2
      · rcases h3 : pub 3 with m3 | v3
        · exact ⟨4,
            ({ numberOfLines := 1, result := some false,
               errors := some [m0, m1, m2, m3],
               failedLines := some [line] } : BatchResult),
            by decide, by decide,
            by simp [getSendSingleMessageFn, sendLoop, h0, h1, h2, h3,
              RETRY_TIMES, attemptTrace, attemptBlock, List.range_succ]⟩
        · exact ⟨4,
            ({ numberOfLines := 1, result := some true } : BatchResult),
            by decide, by decide,
            by simp [getSendSingleMessageFn, sendLoop, h0, h1, h2, h3,
              RETRY_TIMES, attemptTrace, attemptBlock, List.range_succ]⟩
      · exact ⟨3, ({ numberOfLines := 1, result := some true } : BatchResult),
          by decide, by decide,
          by simp [getSendSingleMessageFn, sendLoop, h0, h1, h2,
            RETRY_TIMES, attemptTrace, attemptBlock, List.range_succ]⟩
    · exact ⟨2, ({ numberOfLines := 1, result := some true } : BatchResult),
        by decide, by decide,
        by simp [getSendSingleMessageFn, sendLoop, h0, h1,
          RETRY_TIMES, attemptTrace, attemptBlock, List.range_succ]⟩
  · exact ⟨1, ({ numberOfLines := 1, result := some true } : BatchResult),
      by decide, by decide,
      by simp [getSendSingleMessageFn, sendLoop, h0,
        RETRY_TIMES, attemptTrace, attemptBlock, List.range_succ]⟩

/-- Claim C6: `getSpeedOptions` is a pure derivation that pins
`recordsPerRequest` to exactly 1 regardless of config, and returns the
configured `numberOfThreads` and `qps` when present and valid (positive),
otherwise the integration defaults of 1 thread and 1 qps. -/
theorem pubsub_getSpeedOptions_spec (config : PubSubMessageConfig) :
    (getSpeedOptions config).recordsPerRequest = 1 ∧
    (∀ v, config.numberOfThreads = some v → 0 < v →
        (getSpeedOptions config).numberOfThreads = v) ∧
    ((config.numberOfThreads = none ∨ config.numberOfThreads = some 0) →
        (getSpeedOptions config).numberOfThreads = 1) ∧
    (∀ v, config.qps = some v → 0 < v → (getSpeedOptions config).qps = v) ∧
    ((config.qps = none ∨ config.qps = some 0) →
        (getSpeedOptions config).qps = 1) := by
  refine ⟨rfl, ?_, ?_, ?_, ?_⟩
  · intro v hv hpos
    simp [getSpeedOptions, getProperValue, hv, hpos, NUMBER_OF_THREADS]
  · rintro (hv | hv) <;>
      simp [getSpeedOptions, getProperValue, hv, NUMBER_OF_THREADS]
  · intro v hv hpos
    simp [getSpeedOptions, getProperValue, hv, hpos, QUERIES_PER_SECOND]
  · rintro (hv | hv) <;>
      simp [getSpeedOptions, getProperValue, hv, QUERIES_PER_SECOND]

/-- Witness for claim C6 at a config carrying a valid thread count and no
qps value. -/
theorem pubsub_getSpeedOptions_spec_witness :
    (getSpeedOptions
        { topic := "t", numberOfThreads := some 5 }).recordsPerRequest = 1 ∧
    (getSpeedOptions
        { topic := "t", numberOfThreads := some 5 }).numberOfThreads = 5 ∧
    (getSpeedOptions { topic := "t", numberOfThreads := some 5 }).qps = 1 := by
  have h := pubsub_getSpeedOptions_spec { topic := "t", numberOfThreads := some 5 }
  exact ⟨h.1, h.2.1 5 rfl (by decide), h.2.2.2.2 (Or.inl rfl)⟩

/-- Claim C7: when the publish succeeds on attempt `k` after `k` earlier
failed attempts, for any `k` from 0 up to the retry budget, the returned
`BatchResult` is exactly `{numberOfLines := 1, result := true}`: no
`errors` field and no `failedLines` field is set, so the earlier failed
attempts leave no trace in the result. -/
theorem pubsub_success_after_failures_clean_result
    (pub : Nat → Except String String) (line : String) (k : Nat)
    (hk : k ≤ RETRY_TIMES)
    (hfail : ∀ j, j < k → ∃ m, pub j = Except.error m)
    (hok : ∃ v, pub k = Except.ok v) :
    getSendSingleMessageFn pub [line] =
      Except.ok (attemptTrace (k + 1),
        { numberOfLines := 1, result := some true }) := by
  obtain ⟨v, hv⟩ := hok
  simp only [RETRY_TIMES] at hk
  interval_cases k
  · simp [getSendSingleMessageFn, sendLoop, hv, attemptTrace, attemptBlock,
      List.range_succ]
  · obtain ⟨m0, h0⟩ := hfail 0 (by norm_num)
    simp [getSendSingleMessageFn, sendLoop, h0, hv, RETRY_TIMES,
      attemptTrace, attemptBlock, List.range_succ]
  · obtain ⟨m0, h0⟩ := hfail 0 (by norm_num)
    obtain ⟨m1, h1⟩ := hfail 1 (by norm_num)
    simp [getSendSingleMessageFn, sendLoop, h0, h1, hv, RETRY_TIMES,
      attemptTrace, attemptBlock, List.range_succ]
  · obtain ⟨m0, h0⟩ := hfail 0 (by norm_num)
    obtain ⟨m1, h1⟩ := hfail 1 (by norm_num)
    obtain ⟨m2, h2⟩ := hfail 2 (by norm_num)
    simp [getSendSingleMessageFn, sendLoop, h0, h1, h2, hv, RETRY_TIMES,
      attemptTrace, attemptBlock, List.range_succ]

/-- Witness for claim C7: success on the third attempt after two
failures. -/
theorem pubsub_success_after_failures_clean_result_witness :
    getSendSingleMessageFn
        (fun j => if j < 2 then Except.error ("e") else Except.ok ("id"))
        ["x"] =
      Except.ok (attemptTrace 3,
        { numberOfLines := 1, result := some true }) :=
  pubsub_success_after_failures_clean_result
    (fun j => if j < 2 then Except.error ("e") else Except.ok ("id"))
    "x" 2 (by decide)
    (fun j hj => ⟨"e", by interval_cases j <;> rfl⟩)
    ⟨"id", rfl⟩

/-- Claim C8: the task kinds form a closed enumeration of twelve members;
exactly two of them — `knot` and `multiple` — are the composite
(dependencies management) kinds, every other member being a non-composite
integration kind. -/
theorem taskType_two_composites_closed :
    (∀ t : TaskType, t ∈ allTaskTypes) ∧
    allTaskTypes.Nodup ∧ allTaskTypes.length = 12 ∧
    (∀ t : TaskType, TaskType.isComposite t = true ↔
        (t = TaskType.KNOT ∨ t = TaskType.MULTIPLE)) ∧
    TaskType.code TaskType.KNOT = "knot" ∧
    TaskType.code TaskType.MULTIPLE = "multiple" := by
  refine ⟨fun t => ?_, by decide, rfl, fun t => ?_, rfl, rfl⟩
  · cases t <;> simp [allTaskTypes]
  · cases t <;> simp [TaskType.isComposite]

/-- Claim C9: every `BatchResult` the per-batch send function returns has
`numberOfLines = 1` (and the input batch had exactly one record); whenever
its `result` is `false`, `failedLines` is the input batch and `errors`
holds exactly one message per publish attempt, in attempt order. -/
theorem pubsub_batchResult_invariant
    (pub : Nat → Except String String) (lines : List String)
    (evts : List PubSubEvent) (res : BatchResult)
    (h : getSendSingleMessageFn pub lines = Except.ok (evts, res)) :
    res.numberOfLines = 1 ∧ lines.length = 1 ∧
    (res.result = some false →
      res.failedLines = some lines ∧
      ∃ l, res.errors = some l ∧ l.length = publishCount evts ∧
        ∀ i, ∀ hi : i < l.length, pub i = Except.error (l.get ⟨i, hi⟩)) := by
  by_cases hl : lines.length = 1
  case neg => simp [getSendSingleMessageFn, hl] at h
  obtain ⟨a, rfl⟩ := List.length_eq_one.mp hl
  rcases h0 : pub 0 with m0 | v0
  · rcases h1 : pub 1 with m1 | v1
    · rcases h2 : pub 2 with m2 | v2
      · rcases h3 : pub 3 with m3 | v3
        · simp [getSendSingleMessageFn, sendLoop, h0, h1, h2, h3,
            RETRY_TIMES] at h
          obtain ⟨he, hr⟩ := h
          subst he hr
          refine ⟨rfl, rfl, fun _ => ⟨rfl, [m0, m1, m2, m3], rfl, rfl, ?_⟩⟩
          intro i hi
          have hi4 : i < 4 := by simpa using hi
          interval_cases i
          · exact h0
          · exact h1
          · exact h2
          · exact h3
        · simp [getSendSingleMessageFn, sendLoop, h0, h1, h2, h3,
            RETRY_TIMES] at h
          obtain ⟨he, hr⟩ := h
          subst he hr
          exact ⟨rfl, rfl, fun hfalse => by simp at hfalse⟩
      · simp [getSendSingleMessageFn, sendLoop, h0, h1, h2, RETRY_TIMES] at h
        obtain ⟨he, hr⟩ := h
        subst he hr
        exact ⟨rfl, rfl, fun hfalse => by simp at hfalse⟩
    · simp [getSendSingleMessageFn, sendLoop, h0, h1, RETRY_TIMES] at h
      obtain ⟨he, hr⟩ := h
      subst he hr
      exact ⟨rfl, rfl, fun hfalse => by simp at hfalse⟩
  · simp [getSendSingleMessageFn, sendLoop, h0, RETRY_TIMES] at h
    obtain ⟨he, hr⟩ := h
    subst he hr
    exact ⟨rfl, rfl, fun hfalse => by simp at hfalse⟩

/-- Witness for claim C9 at a concrete always-failing oracle. -/
theorem pubsub_batchResult_invariant_witness :
    ({ numberOfLines := 1, result := some false,
       errors := some ["e", "e", "e", "e"],
       failedLines := some ["x"] } : BatchResult).numberOfLines = 1 ∧
    (["x"] : List String).length = 1 ∧
    (({ numberOfLines := 1, result := some false,
        errors := some ["e", "e", "e", "e"],
        failedLines := some ["x"] } : BatchResult).result = some false →
      ({ numberOfLines := 1, result := some false,
         errors := some ["e", "e", "e", "e"],
         failedLines := some ["x"] } : BatchResult).failedLines = some ["x"] ∧
      ∃ l, ({ numberOfLines := 1, result := some false,
              errors := some ["e", "e", "e", "e"],
              failedLines := some ["x"] } : BatchResult).errors = some l ∧
        l.length = publishCount (attemptTrace 4) ∧
        ∀ i, ∀ hi : i < l.length,
          (fun _ => Except.error ("e") : Nat → Except String String) i =
            Except.error (l.get ⟨i, hi⟩)) :=
  pubsub_batchResult_invariant (fun _ => Except.error ("e")) ["x"]
    (attemptTrace 4)
    ({ numberOfLines := 1, result := some false,
       errors := some ["e", "e", "e", "e"],
       failedLines := some ["x"] } : BatchResult)
    (by simp [getSendSingleMessageFn, sendLoop, RETRY_TIMES, attemptTrace,
      attemptBlock, List.range_succ])

/-- Claim C10: a `TaskConfigDao` built without an explicit namespace uses
the namespace `sentinel`, and every `TaskConfigDao` is bound to the
`TaskConfig` collection of the supplied data source. -/
theorem taskConfigDao_defaults (dataSource : DataSource) :
    (TaskConfigDao.construct dataSource none).«namespace» = "sentinel" ∧
    (∀ ns, (TaskConfigDao.construct dataSource ns).collection = "TaskConfig") ∧
    (∀ ns, (TaskConfigDao.construct dataSource ns).dataSource = dataSource) :=
  ⟨rfl, fun _ => rfl, fun _ => rfl⟩
